import Mathlib

/-!
# kldldr: service lifecycle control

A shallow embedding of `kldldr.c`.  The operating system is an oracle: a record
`Os` that fixes, for every system call the program can make, the value the call
returns and the value `GetLastError()` yields right after it.  A controller is a
function from its arguments and the oracle to its C return value and the list
of observable events (system calls with their arguments, `printf`/`fprintf`
calls with their format string and arguments) in program order.
-/

namespace Kldldr

/-! ## Constants of `windows.h` used by the program -/

def ERROR_SUCCESS : Nat := 0
def ERROR_INSUFFICIENT_BUFFER : Nat := 122
def ERROR_MORE_DATA : Nat := 234
def ERROR_SERVICE_ALREADY_RUNNING : Nat := 1056
def ERROR_SERVICE_DOES_NOT_EXIST : Nat := 1060
def ERROR_SERVICE_EXISTS : Nat := 1073

def SERVICE_KERNEL_DRIVER : Nat := 0x1
def SERVICE_FILE_SYSTEM_DRIVER : Nat := 0x2
def SERVICE_WIN32_OWN_PROCESS : Nat := 0x10
def SERVICE_WIN32_SHARE_PROCESS : Nat := 0x20
def SERVICE_INTERACTIVE_PROCESS : Nat := 0x100
def SERVICE_DRIVER : Nat := 0xB

def SERVICE_STOPPED : Nat := 1
def SERVICE_START_PENDING : Nat := 2
def SERVICE_STOP_PENDING : Nat := 3
def SERVICE_RUNNING : Nat := 4
def SERVICE_CONTINUE_PENDING : Nat := 5
def SERVICE_PAUSE_PENDING : Nat := 6
def SERVICE_PAUSED : Nat := 7

def SC_MANAGER_ALL_ACCESS : Nat := 0xF003F
def SERVICE_ALL_ACCESS : Nat := 0xF01FF
def GENERIC_READ : Nat := 0x80000000
def SERVICE_DEMAND_START : Nat := 3
def SERVICE_ERROR_NORMAL : Nat := 1
def SERVICE_CONTROL_STOP : Nat := 1
def SERVICE_STATE_ALL : Nat := 3
def MAX_PATH : Nat := 260
def REG_EXPAND_SZ : Nat := 2
def REG_DWORD : Nat := 4

def KLDLDR_LOAD : Nat := 1
def KLDLDR_UNLOAD : Nat := 2
def KLDLDR_QUERY : Nat := 3

/-! ## Observable events -/

/-- An argument of a `printf`/`fprintf` call after the format string. -/
inductive Arg where
  | int (v : Nat)
  | chr (c : Char)
  | str (s : String)
  | null
  deriving DecidableEq

/-- The stream a message is written to: `printf`/`puts` write to `out`,
`fprintf(stderr, ...)` writes to `err`. -/
inductive Stream where
  | out
  | err
  deriving DecidableEq

/-- One observable step of the program.  Handles, pointers and `BOOL`s are
numbers, `0` being `NULL`/`FALSE`; `ret` is what the call returned. -/
inductive Event where
  | print (dest : Stream) (fmt : String) (args : List Arg)
  | OpenSCManager (access ret : Nat)
  | CreateService (scm : Nat) (name display : String) (access type start errctl : Nat)
      (path : String) (ret : Nat)
  | OpenService (scm : Nat) (name : String) (access ret : Nat)
  | StartService (h ret : Nat)
  | ControlService (h control ret : Nat)
  | DeleteService (h ret : Nat)
  | QueryServiceStatus (h ret : Nat)
  | EnumServicesStatus (scm type state buf bufsize ret : Nat)
  | CloseServiceHandle (h : Nat)
  | malloc (size ret : Nat)
  | free (p : Nat)
  | GetEnvironmentVariable (name : String) (size ret : Nat)
  | CopyFile (src dst : String) (failIfExists ret : Nat)
  | RegCreateKey (key : String) (ret : Nat)
  | RegSetValueEx (hkey : Nat) (name : String) (type : Nat) (data : Arg) (size ret : Nat)
  | RegCloseKey (hkey : Nat)
  deriving DecidableEq

/-- What a system call hands back: its return value and the value
`GetLastError()` yields right after the call. -/
structure Ret where
  val : Nat
  err : Nat
  deriving DecidableEq

/-- The fields of `SERVICE_STATUS` the program reads. -/
structure ServiceStatus where
  dwServiceType : Nat
  dwCurrentState : Nat
  deriving DecidableEq

/-- One element of the array `EnumServicesStatus` fills. -/
structure EnumServiceStatus where
  lpServiceName : String
  lpDisplayName : String
  ServiceStatus : ServiceStatus
  deriving DecidableEq

/-- The operating system as seen by one run: the outcome of every call the
program can make.  `EnumServicesStatus` is called twice, first with a
zero-length buffer ( `enumSize`, which reports `bytesneeded`) and then with the
allocated buffer ( `enumReal`, which fills `services`; `nservices` is its
length).  `systemRoot` is the value of the environment variable `SYSTEMROOT`
when it is set; `hKey` is what `RegCreateKey` leaves in its out-parameter; the
registry calls return their status code in `val`. -/
structure Os where
  openSCManager : Ret
  createService : Ret
  openService : Ret
  startService : Ret
  controlService : Ret
  deleteService : Ret
  queryServiceStatus : Ret
  sstat : ServiceStatus
  enumSize : Ret
  bytesneeded : Nat
  mallocRet : Nat
  enumReal : Ret
  services : List EnumServiceStatus
  systemRoot : Option (List Char)
  copyFile : Ret
  regCreateKey : Ret
  hKey : Nat
  regSetEventMessageFile : Ret
  regSetTypesSupported : Ret
  deriving DecidableEq

/-- The C return value of a controller and the events it produced. -/
structure Result where
  ret : Nat
  trace : List Event
  deriving DecidableEq

/-! ## Service type/state translator (lines 377-419) -/

def GetSvcTypeStr (svctype : Nat) : String :=
  if svctype &&& SERVICE_KERNEL_DRIVER ≠ 0 then
    "Kernel driver"
  else if svctype &&& SERVICE_FILE_SYSTEM_DRIVER ≠ 0 then
    "File system driver"
  else if svctype &&& SERVICE_WIN32_OWN_PROCESS ≠ 0 then
    (if svctype &&& SERVICE_INTERACTIVE_PROCESS ≠ 0 then
      "Interactive individual process"
    else
      "Individual process")
  else if svctype &&& SERVICE_WIN32_SHARE_PROCESS ≠ 0 then
    (if svctype &&& SERVICE_INTERACTIVE_PROCESS ≠ 0 then
      "Interactive shared process"
    else
      "Shared process")
  else
    "Unknown type"

def GetSvcStateStr (svcstate : Nat) : String :=
  if svcstate = SERVICE_STOPPED then "Stopped"
  else if svcstate = SERVICE_START_PENDING then "Pending start"
  else if svcstate = SERVICE_STOP_PENDING then "Pending stop"
  else if svcstate = SERVICE_RUNNING then "Running"
  else if svcstate = SERVICE_CONTINUE_PENDING then "Pending continue"
  else if svcstate = SERVICE_PAUSE_PENDING then "Pending pause"
  else if svcstate = SERVICE_PAUSED then "Paused"
  else "Unknown state"

/-! ## Driver load controller (lines 209-258) -/

/-- Lines 243-257 of `DriverLoad`: start the service whose handle is held, then
close both handles.  `t` is the trace so far. -/
def DriverLoad_start (verbose : Nat) (hSCManager hService : Nat) (os : Os)
    (t : List Event) : Result :=
  let success := os.startService.val
  let t := t ++ [Event.StartService hService success]
  if success = 0 then
    let err := os.startService.err
    if err = ERROR_SERVICE_ALREADY_RUNNING then
      let t := t ++ (if verbose ≠ 0 then
        [Event.print .out "service is already running\n" []] else [])
      ⟨1, t ++ [.CloseServiceHandle hService, .CloseServiceHandle hSCManager]⟩
    else
      let t := t ++ [Event.print .err "error (%d): failed to start service\n" [.int err]]
      ⟨success, t ++ [.CloseServiceHandle hService, .CloseServiceHandle hSCManager]⟩
  else
    ⟨success, t ++ [.CloseServiceHandle hService, .CloseServiceHandle hSCManager]⟩

def DriverLoad (verbose : Nat) (servicename modulepath : String) (os : Os) : Result :=
  let hSCManager := os.openSCManager.val
  let t := [Event.OpenSCManager SC_MANAGER_ALL_ACCESS hSCManager]
  if hSCManager = 0 then
    ⟨0, t ++ [.print .err "error (%d): failed to open service control manager\n"
      [.int os.openSCManager.err]]⟩
  else
    let hService := os.createService.val
    let t := t ++ [Event.CreateService hSCManager servicename servicename SERVICE_ALL_ACCESS
      SERVICE_KERNEL_DRIVER SERVICE_DEMAND_START SERVICE_ERROR_NORMAL modulepath hService]
    if hService = 0 then
      if os.createService.err = ERROR_SERVICE_EXISTS then
        let t := t ++ (if verbose ≠ 0 then
          [Event.print .out "service already exists, opening\n" []] else [])
        let hService := os.openService.val
        let t := t ++ [Event.OpenService hSCManager servicename SERVICE_ALL_ACCESS hService]
        if hService = 0 then
          ⟨0, t ++ [.print .err "error (%d): failed to open service\n" [.int os.openService.err],
            .CloseServiceHandle hSCManager]⟩
        else
          DriverLoad_start verbose hSCManager hService os t
      else
        ⟨0, t ++ [.print .err "error (%d): failed to create service\n"
          [.int os.createService.err], .CloseServiceHandle hSCManager]⟩
    else
      DriverLoad_start verbose hSCManager hService os t

/-! ## Driver unload controller (lines 261-296) -/

def DriverUnload (verbose do_stop_only : Nat) (servicename : String) (os : Os) : Result :=
  let hSCManager := os.openSCManager.val
  let t := [Event.OpenSCManager SC_MANAGER_ALL_ACCESS hSCManager]
  if hSCManager = 0 then
    ⟨0, t ++ [.print .err "error (%d): failed to open service control manager\n"
      [.int os.openSCManager.err]]⟩
  else
    let hService := os.openService.val
    let t := t ++ [Event.OpenService hSCManager servicename SERVICE_ALL_ACCESS hService]
    if hService = 0 then
      ⟨0, t ++ [.print .err "error (%d): failed to open service\n" [.int os.openService.err],
        .CloseServiceHandle hSCManager]⟩
    else
      let stopped := os.controlService.val
      let t := t ++ [Event.ControlService hService SERVICE_CONTROL_STOP stopped]
      let t := t ++ (if stopped = 0 ∧ verbose ≠ 0 then
        [Event.print .out "warning (%d): failed to control service\n"
          [.int os.controlService.err]] else [])
      let success := if stopped = 0 then 0 else 1
      if do_stop_only = 0 then
        let success := os.deleteService.val
        let t := t ++ [Event.DeleteService hService success]
        let t := t ++ (if success = 0 then
          [Event.print .err "error (%d): failed to delete service\n"
            [.int os.deleteService.err]] else [])
        ⟨success, t ++ [.CloseServiceHandle hSCManager, .CloseServiceHandle hService]⟩
      else
        ⟨success, t ++ [.CloseServiceHandle hSCManager, .CloseServiceHandle hService]⟩

/-! ## Driver query controller (lines 299-374) -/

/-- The shared exit of `DriverQuery` (label `fail`, lines 367-373). -/
def DriverQuery_fail (success pservices hService hSCManager : Nat) (t : List Event) : Result :=
  ⟨success, t ++ [Event.free pservices]
    ++ (if hService ≠ 0 then [Event.CloseServiceHandle hService] else [])
    ++ (if hSCManager ≠ 0 then [Event.CloseServiceHandle hSCManager] else [])⟩

def DriverQuery (servicename : String) (os : Os) : Result :=
  let hSCManager := os.openSCManager.val
  let t := [Event.OpenSCManager SC_MANAGER_ALL_ACCESS hSCManager]
  if hSCManager = 0 then
    ⟨0, t ++ [.print .err "error (%d): failed to open service control manager\n"
      [.int os.openSCManager.err]]⟩
  else if servicename ≠ "" then
    let hService := os.openService.val
    let t := t ++ [Event.OpenService hSCManager servicename GENERIC_READ hService]
    let err := os.openService.err
    if err = ERROR_SERVICE_DOES_NOT_EXIST then
      DriverQuery_fail 1 0 hService hSCManager
        (t ++ [.print .out "service '%s' does not exist\n" [.str servicename]])
    else if hService = 0 then
      DriverQuery_fail 0 0 hService hSCManager
        (t ++ [.print .err "error (%d): failed to open service\n" [.int err]])
    else
      let t := t ++ [Event.QueryServiceStatus hService os.queryServiceStatus.val]
      if os.queryServiceStatus.val = 0 then
        DriverQuery_fail 0 0 hService hSCManager
          (t ++ [.print .err "error (%d): failed to query service status\n"
            [.int os.queryServiceStatus.err]])
      else
        DriverQuery_fail 1 0 hService hSCManager
          (t ++ [.print .out "%s\n\tType:   %s\n\tStatus: %s\n"
            [.str servicename, .str (GetSvcTypeStr os.sstat.dwServiceType),
             .str (GetSvcStateStr os.sstat.dwCurrentState)]])
  else
    let t := t ++ [Event.EnumServicesStatus hSCManager SERVICE_DRIVER SERVICE_STATE_ALL 0 0
      os.enumSize.val]
    let err := os.enumSize.err
    if err ≠ ERROR_INSUFFICIENT_BUFFER ∧ err ≠ ERROR_MORE_DATA then
      DriverQuery_fail 0 0 0 hSCManager
        (t ++ [.print .err "error (%d): failed to query service status size\n" [.int err]])
    else
      let pservices := os.mallocRet
      let t := t ++ [Event.malloc os.bytesneeded pservices]
      let t := t ++ [Event.EnumServicesStatus hSCManager SERVICE_DRIVER SERVICE_STATE_ALL
        pservices os.bytesneeded os.enumReal.val]
      if os.enumReal.val = 0 then
        DriverQuery_fail 0 pservices 0 hSCManager
          (t ++ [.print .err "error (%d): failed to enumerate services\n"
            [.int os.enumReal.err]])
      else
        DriverQuery_fail 1 pservices 0 hSCManager
          (t ++ os.services.map (fun s =>
            Event.print .out "%s - %s\n\tType:   %s\n\tStatus: %s\n"
              [.str s.lpServiceName, .str s.lpDisplayName,
               .str (GetSvcTypeStr s.ServiceStatus.dwServiceType),
               .str (GetSvcStateStr s.ServiceStatus.dwCurrentState)]))

/-! ## C strings

A pointer to `char` is the list of bytes from the pointed-to position to the
end of the array it points into.  The functions of `string.h` return the
memory from the destination pointer on after the call; a result longer than
the destination array means the call wrote past its end. -/

def NUL : Char := Char.ofNat 0

/-- The C string at `p`: the characters before the first NUL. -/
def cstr (p : List Char) : List Char := p.takeWhile (fun c => c ≠ NUL)

def strlen (p : List Char) : Nat := (cstr p).length

/-- The C string a string literal or a command-line argument holds. -/
def cstring (a : String) : List Char := cstr a.toList

/-- Writes exactly `n` bytes: the first `n` characters of the string at `src`,
padded with NULs when the string is shorter than `n`. -/
def strncpy (dst src : List Char) (n : Nat) : List Char :=
  (cstr src).take n ++ List.replicate (n - strlen src) NUL ++ dst.drop n

/-- Writes the string at `src` and its terminating NUL. -/
def strcpy (dst src : List Char) : List Char :=
  cstr src ++ [NUL] ++ dst.drop (strlen src + 1)

/-- Appends at most `n` characters of the string at `src` to the string at
`dst`, then a terminating NUL. -/
def strncat (dst src : List Char) (n : Nat) : List Char :=
  cstr dst ++ (cstr src).take n ++ [NUL]
    ++ dst.drop (strlen dst + ((cstr src).take n).length + 1)

/-- The index of the last occurrence of `c` (not NUL) in the string at `p`;
`none` is the null pointer. -/
def strrchr : List Char → Char → Option Nat
  | [], _ => none
  | x :: xs, c =>
    if x = NUL then none
    else match strrchr xs c with
      | some k => some (k + 1)
      | none => if x = c then some 0 else none

/-- The expression `s ? s + 1 : p`, where `s` is a result of `strrchr` on `p`. -/
def afterPtr (p : List Char) (s : Option Nat) : List Char :=
  match s with
  | some k => p.drop (k + 1)
  | none => p

/-- The statement `if (s) *s = 0;`, where `s` is a result of `strrchr` on `p`;
returns the memory at `p` afterwards. -/
def cutAt (p : List Char) (s : Option Nat) : List Char :=
  match s with
  | some k => p.set k NUL
  | none => p

/-! ## Global variables and the command line (lines 69-75, 131-206) -/

def HELP_STR : String :=
  "kldldr load [-imv] <filename> [service name] - load a driver using the " ++
  "specified service name (uses filename if absent)\n" ++
  "kldldr unload [-sv] <service name> - stops the specified driver and deletes " ++
  "the service\n" ++
  "kldldr query [-v] [service name] - queries the status of the specified " ++
  "service (enumerates all if absent)\n" ++
  "kldldr - this help message\n" ++
  "Flags:\n" ++
  "  -i: copy driver into system driver folder before loading\n" ++
  "  -m: write registry entry for Eventlog to recognize this service while loading\n" ++
  "  -s: stop service instead of deleting when unloading\n" ++
  "  -v: increases verbosity\n"

def EVLOG_REGISTRY_KEY : String := "SYSTEM\\CurrentControlSet\\Services\\Eventlog\\System\\"

def str_actions : List String := ["load", "unload", "query"]

structure Globals where
  verbose : Nat
  do_copy_into_dir : Nat
  do_create_elog_entry : Nat
  do_stop_only : Nat
  action : Nat
  servicename : List Char
  filename : List Char
  deriving DecidableEq

/-- Objects with static storage duration start zeroed; `servicename` is
`char[256]` and `filename` is `char[MAX_PATH]`. -/
def Globals.init : Globals :=
  { verbose := 0, do_copy_into_dir := 0, do_create_elog_entry := 0, do_stop_only := 0,
    action := 0, servicename := List.replicate 256 NUL, filename := List.replicate MAX_PATH NUL }

/-- The loop over `j` (lines 143-160) on the characters after the dash. -/
def ParseCmdLine_flag (g : Globals) : List Char → Globals × List Event
  | [] => (g, [])
  | c :: cs =>
    if c = 'i' then ParseCmdLine_flag { g with do_copy_into_dir := 1 } cs
    else if c = 'm' then ParseCmdLine_flag { g with do_create_elog_entry := 1 } cs
    else if c = 's' then ParseCmdLine_flag { g with do_stop_only := 1 } cs
    else if c = 'v' then ParseCmdLine_flag { g with verbose := g.verbose + 1 } cs
    else
      let r := ParseCmdLine_flag g cs
      (r.1, Event.print .err "error: unhandled flag '%c', ignoring\n" [.chr c] :: r.2)

/-- The loop over `i` (lines 139-161) on `argv[2..]`: returns the globals, the
arguments from `argv[i]` on, and the messages. -/
def ParseCmdLine_flags (g : Globals) : List String → Globals × List String × List Event
  | [] => (g, [], [])
  | a :: rest =>
    if (cstring a).head? ≠ some '-' then (g, a :: rest, [])
    else
      let r := ParseCmdLine_flag g ((cstring a).drop 1)
      let r2 := ParseCmdLine_flags r.1 rest
      (r2.1, r2.2.1, r.2 ++ r2.2.2)

/-- What `ParseCmdLine` leaves behind: `exit = some code` when it ended the
process with `exit(code)`, else the globals it has set. -/
structure Parsed where
  exit : Option Nat
  g : Globals
  trace : List Event
  deriving DecidableEq

def insufficient : Event :=
  Event.print .err "error: insufficient number of arguments\n" []

def ParseCmdLine (g : Globals) (argv : List String) : Parsed :=
  if argv.length < 2 then
    ⟨some 0, g, [.print .out "%s\n" [.str HELP_STR]]⟩
  else
    let r := ParseCmdLine_flags g (argv.drop 2)
    let g := r.1
    let params := r.2.1
    let t := r.2.2
    let nparams := params.length
    let verb := (cstring (argv.getD 1 "")).head?
    if verb = some 'l' then
      let g := { g with action := KLDLDR_LOAD }
      if nparams < 1 then ⟨some 0, g, t ++ [insufficient]⟩
      else
        let filename := (strncpy g.filename (params.getD 0 "").toList MAX_PATH).set
          (MAX_PATH - 1) NUL
        let g := { g with filename := filename }
        if nparams = 1 then
          let s := strrchr filename '\\'
          let servicename := (strncpy g.servicename (afterPtr filename s) 256).set (256 - 1) NUL
          let s := strrchr servicename '.'
          let servicename := cutAt servicename s
          ⟨none, { g with servicename := servicename }, t⟩
        else
          let servicename := (strncpy g.servicename (params.getD 1 "").toList 256).set
            (256 - 1) NUL
          ⟨none, { g with servicename := servicename }, t⟩
    else if verb = some 'u' then
      let g := { g with action := KLDLDR_UNLOAD }
      if nparams < 1 then ⟨some 0, g, t ++ [insufficient]⟩
      else
        let servicename := (strncpy g.servicename (params.getD 0 "").toList 256).set
          (256 - 1) NUL
        ⟨none, { g with servicename := servicename }, t⟩
    else if verb = some 'q' then
      let g := { g with action := KLDLDR_QUERY }
      if nparams ≥ 1 then
        let servicename := (strncpy g.servicename (params.getD 0 "").toList 256).set
          (256 - 1) NUL
        ⟨none, { g with servicename := servicename }, t⟩
      else ⟨none, g, t⟩
    else
      ⟨some 0, g, t ++ [.print .err "error: unknown action '%s'\n"
        [match argv.get? 2 with | some a => .str a | none => .null]]⟩

/-! ## Event-log source registrar (lines 422-450) -/

/-- The memory at `keyname` after lines 426-427; `keyname` is `char[256]`.  The
array is not initialised; its first bytes are overwritten by `strcpy` before
they are read, so the model starts it zeroed. -/
def CreateEventlogRegEntry_keyname (servicename : List Char) : List Char :=
  let keyname := strcpy (List.replicate 256 NUL) EVLOG_REGISTRY_KEY.toList
  strncat keyname servicename 256

/-- The registrar reads the global `servicename`.  The result is `none` when
`strncat` has written past the end of `keyname` (undefined behaviour). -/
def CreateEventlogRegEntry (servicename : List Char) (evfilename : String)
    (types_supported : Nat) (os : Os) : Option Result :=
  let keyname := CreateEventlogRegEntry_keyname servicename
  if 256 < keyname.length then none
  else
    let keyname := String.mk (cstr (keyname.set (256 - 1) NUL))
    let t := [Event.RegCreateKey keyname os.regCreateKey.val]
    if os.regCreateKey.val ≠ ERROR_SUCCESS then
      some ⟨0, t ++ [.print .err "error (%d): failed to create registry key '%s'\n"
        [.int os.regCreateKey.err, .str keyname], .RegCloseKey os.hKey]⟩
    else
      let t := t ++ [Event.RegSetValueEx os.hKey "EventMessageFile" REG_EXPAND_SZ
        (.str evfilename) (evfilename.length + 1) os.regSetEventMessageFile.val]
      if os.regSetEventMessageFile.val ≠ ERROR_SUCCESS then
        some ⟨0, t ++ [.print .err "error (%d): failed to set registry values\n"
          [.int os.regSetEventMessageFile.err], .RegCloseKey os.hKey]⟩
      else
        let t := t ++ [Event.RegSetValueEx os.hKey "TypesSupported" REG_DWORD
          (.int types_supported) 4 os.regSetTypesSupported.val]
        if os.regSetTypesSupported.val ≠ ERROR_SUCCESS then
          some ⟨0, t ++ [.print .err "error (%d): failed to set registry values\n"
            [.int os.regSetTypesSupported.err], .RegCloseKey os.hKey]⟩
        else
          some ⟨1, t ++ [.RegCloseKey os.hKey]⟩


/-! ## The dispatcher (lines 81-128) -/

/-- Lines 93-101: the memory at `drvpath` ( `char[MAX_PATH]`, not initialised,
modelled zeroed since it is written before it is read) and the events.  The
result is `none` when the buffer is left undefined: `GetEnvironmentVariable`
was given too small a buffer, or `strncat` wrote past the end of `drvpath`. -/
def main_drvpath (g : Globals) (os : Os) : Option (List Char × List Event) :=
  let drvpath := List.replicate MAX_PATH NUL
  let value := match os.systemRoot with
    | some v => cstr v
    | none => []
  if MAX_PATH < value.length + 1 then none
  else
    let got := value.length
    let drvpath := if got = 0 then strcpy drvpath "C:\\WINDOWS".toList
      else strcpy drvpath value
    let t := [Event.GetEnvironmentVariable "SYSTEMROOT" MAX_PATH got]
    let drvpath := strncat drvpath "\\system32\\drivers\\".toList MAX_PATH
    if MAX_PATH < drvpath.length then none
    else
      let drvpath := drvpath.set (MAX_PATH - 1) NUL
      let s := strrchr g.filename '\\'
      let drvpath := strncat drvpath (afterPtr g.filename s) MAX_PATH
      if MAX_PATH < drvpath.length then none
      else some (drvpath.set (MAX_PATH - 1) NUL, t)

/-- Lines 90-110: the path handed to `DriverLoad` and the events so far.  The
result is `none` when the behaviour is undefined: `drvpath` is (see
`main_drvpath`), or `CopyFile` failed, since the `fprintf` of line 104 is then
called with two arguments for its three conversions, the first of them a
`char *` for `%d`. -/
def main_copy (g : Globals) (os : Os) : Option (String × List Event) :=
  if g.do_copy_into_dir ≠ 0 then
    match main_drvpath g os with
    | none => none
    | some (drvpath, t) =>
      let src := String.mk (cstr g.filename)
      let dst := String.mk (cstr drvpath)
      if os.copyFile.val = 0 then none
      else some (dst, t ++ [Event.CopyFile src dst 0 os.copyFile.val])
  else some (String.mk (cstr g.filename), [])

/-- The state of `main` when it leaves the `switch`: the variable `status` and
the events so far. -/
structure Switched where
  status : Nat
  trace : List Event
  deriving DecidableEq

/-- Lines 112-115. -/
def main_load (g : Globals) (filepath : String) (os : Os) (t : List Event) :
    Option Switched :=
  let r := DriverLoad g.verbose (String.mk (cstr g.servicename)) filepath os
  if g.do_create_elog_entry ≠ 0 then
    if r.ret ≠ 0 then
      match CreateEventlogRegEntry g.servicename filepath 0x07 os with
      | none => none
      | some e => some ⟨if e.ret ≠ 0 then 1 else 0, t ++ r.trace ++ e.trace⟩
    else some ⟨0, t ++ r.trace⟩
  else some ⟨r.ret, t ++ r.trace⟩

/-- Lines 88-122. -/
def main_switch (g : Globals) (os : Os) : Option Switched :=
  if g.action = KLDLDR_LOAD then
    match main_copy g os with
    | none => none
    | some (filepath, t) => main_load g filepath os t
  else if g.action = KLDLDR_UNLOAD then
    let r := DriverUnload g.verbose g.do_stop_only (String.mk (cstr g.servicename)) os
    some ⟨r.ret, r.trace⟩
  else if g.action = KLDLDR_QUERY then
    let r := DriverQuery (String.mk (cstr g.servicename)) os
    some ⟨r.ret, r.trace⟩
  else some ⟨0, []⟩

/-- Lines 88-127: `main` after `ParseCmdLine`.  The result is `none` when the
behaviour is undefined (see `main_copy` and `CreateEventlogRegEntry`, or
`str_actions` indexed outside its three elements). -/
def main_run (g : Globals) (os : Os) : Option Result :=
  match main_switch g os with
  | none => none
  | some sw =>
    let status := if sw.status = 0 then 1 else 0
    if status ≠ 0 then
      if g.action = 0 then none
      else match str_actions.get? (g.action - 1) with
        | none => none
        | some a => some ⟨status, sw.trace ++ [.print .err "failed to perform %s.\n" [.str a]]⟩
    else some ⟨status, sw.trace⟩

def main (argv : List String) (os : Os) : Option Result :=
  let p := ParseCmdLine Globals.init argv
  match p.exit with
  | some code => some ⟨code, p.trace⟩
  | none =>
    match main_run p.g os with
    | none => none
    | some r => some ⟨r.ret, p.trace ++ r.trace⟩


/-! ## Observations on traces -/

def isStdout : Event → Bool
  | .print .out _ _ => true
  | _ => false

def isStderr : Event → Bool
  | .print .err _ _ => true
  | _ => false

/-- What the run wrote to standard output, in order. -/
def stdoutOf (t : List Event) : List Event := t.filter isStdout

/-- What the run wrote to standard error, in order. -/
def stderrOf (t : List Event) : List Event := t.filter isStderr

def isCreate : Event → Bool
  | .CreateService .. => true
  | _ => false

def isOpenService : Event → Bool
  | .OpenService .. => true
  | _ => false

def isStart : Event → Bool
  | .StartService .. => true
  | _ => false

def isDelete : Event → Bool
  | .DeleteService .. => true
  | _ => false

def isQueryStatus : Event → Bool
  | .QueryServiceStatus .. => true
  | _ => false

def isEnum : Event → Bool
  | .EnumServicesStatus .. => true
  | _ => false

/-- The number of `EnumServicesStatus` calls: 1 for the sizing call alone, 2
when the real enumeration followed. -/
def enumCalls (t : List Event) : Nat := (t.filter isEnum).length

/-- The block `DriverQuery` prints for one enumerated record (lines 360-363). -/
def enumBlock (s : EnumServiceStatus) : Event :=
  Event.print .out "%s - %s\n\tType:   %s\n\tStatus: %s\n"
    [.str s.lpServiceName, .str s.lpDisplayName,
     .str (GetSvcTypeStr s.ServiceStatus.dwServiceType),
     .str (GetSvcStateStr s.ServiceStatus.dwCurrentState)]




/-- Whether the format string `fmt` starts with `p`. -/
def startsWith (p fmt : String) : Bool := p.toList.isPrefixOf fmt.toList

/-- A diagnostic line: a message whose format starts with `error (%d):` or
`warning (%d):`, on either stream. -/
def isDiagnostic : Event → Bool
  | .print _ fmt _ => startsWith "error (%d):" fmt || startsWith "warning (%d):" fmt
  | _ => false

/-- A line on standard error of the form `error (<code>): failed to <step>`,
the code being its only argument. -/
def isErrorLine : Event → Bool
  | .print .err fmt [.int _] => startsWith "error (%d): failed to " fmt
  | _ => false

/-- The warning `DriverUnload` prints for a failed stop control (line 281); it
goes through `printf`, to standard output. -/
def stopWarning (code : Nat) : Event :=
  Event.print .out "warning (%d): failed to control service\n" [.int code]


/-! ## Reading the service name off a path, as the usage text words it -/

/-- The part of `s` after its last `c`; the whole of `s` when it has no `c`. -/
def afterLast (c : Char) : List Char → List Char
  | [] => []
  | x :: xs => if c ∈ xs then afterLast c xs else if x = c then xs else x :: xs

/-- The string `s` with everything from its last `c` onward removed; the
whole of `s` when it has no `c`. -/
def uptoLast (c : Char) : List Char → List Char
  | [] => []
  | x :: xs => if c ∈ xs then x :: uptoLast c xs else if x = c then [] else x :: xs

/-! ## Resource accounting -/

/-- The service handles that are open and the heap buffers that are live. -/
structure Resources where
  handles : List Nat
  buffers : List Nat
  deriving DecidableEq

/-- The effect of one event on the resources.  A call that returns a
non-null handle or pointer acquires it; `CloseServiceHandle` releases an open
handle and `free` a live buffer ( `free(NULL)` does nothing).  The result is
`none` when the event releases something that is not held. -/
def Resources.step (r : Resources) : Event → Option Resources
  | .OpenSCManager _ ret =>
    some (if ret ≠ 0 then { r with handles := ret :: r.handles } else r)
  | .CreateService _ _ _ _ _ _ _ _ ret =>
    some (if ret ≠ 0 then { r with handles := ret :: r.handles } else r)
  | .OpenService _ _ _ ret =>
    some (if ret ≠ 0 then { r with handles := ret :: r.handles } else r)
  | .CloseServiceHandle h =>
    if h ∈ r.handles then some { r with handles := r.handles.erase h } else none
  | .malloc _ ret =>
    some (if ret ≠ 0 then { r with buffers := ret :: r.buffers } else r)
  | .free p =>
    if p = 0 then some r
    else if p ∈ r.buffers then some { r with buffers := r.buffers.erase p } else none
  | _ => some r

/-- The resources after a whole trace. -/
def Resources.run (r : Resources) : List Event → Option Resources
  | [] => some r
  | e :: es =>
    match r.step e with
    | none => none
    | some r2 => r2.run es

/-- The calls in the trace that acquired a handle or a buffer. -/
def acquired : List Event → Nat
  | [] => 0
  | .OpenSCManager _ ret :: es => (if ret ≠ 0 then 1 else 0) + acquired es
  | .CreateService _ _ _ _ _ _ _ _ ret :: es => (if ret ≠ 0 then 1 else 0) + acquired es
  | .OpenService _ _ _ ret :: es => (if ret ≠ 0 then 1 else 0) + acquired es
  | .malloc _ ret :: es => (if ret ≠ 0 then 1 else 0) + acquired es
  | _ :: es => acquired es

/-- The calls in the trace that released a handle or a buffer. -/
def released : List Event → Nat
  | [] => 0
  | .CloseServiceHandle _ :: es => 1 + released es
  | .free p :: es => (if p ≠ 0 then 1 else 0) + released es
  | _ :: es => released es

/-! ## Sample runs -/

/-- A system on which every call succeeds; one driver service is registered. -/
def osOk : Os :=
  { openSCManager := ⟨100, 0⟩, createService := ⟨101, 0⟩, openService := ⟨102, 0⟩,
    startService := ⟨1, 0⟩, controlService := ⟨1, 0⟩, deleteService := ⟨1, 0⟩,
    queryServiceStatus := ⟨1, 0⟩, sstat := ⟨1, 4⟩,
    enumSize := ⟨0, ERROR_INSUFFICIENT_BUFFER⟩, bytesneeded := 36, mallocRet := 4096,
    enumReal := ⟨1, 0⟩, services := [⟨"beep", "Beep", ⟨1, 4⟩⟩],
    systemRoot := some "C:\\WINDOWS".toList, copyFile := ⟨1, 0⟩,
    regCreateKey := ⟨0, 0⟩, hKey := 200, regSetEventMessageFile := ⟨0, 0⟩,
    regSetTypesSupported := ⟨0, 0⟩ }

/-- As `osOk`, but the zero-length `EnumServicesStatus` call reports
`ERROR_MORE_DATA`. -/
def osMoreData : Os := { osOk with enumSize := ⟨0, ERROR_MORE_DATA⟩ }

/-- As `osOk`, but the stop control fails with error 1062 (service not
active). -/
def osStopFails : Os := { osOk with controlService := ⟨0, 1062⟩ }

/-- As `osOk`, but `OpenService` returns a handle while the last-error value
of the thread is still 1060 from an earlier failed call. -/
def osStaleError : Os := { osOk with openService := ⟨102, ERROR_SERVICE_DOES_NOT_EXIST⟩ }

/-- The command line `kldldr load -m beep.sys aaa...a` with a service name of
206 characters. -/
def argvLongName : List String :=
  ["kldldr", "load", "-m", "beep.sys", String.mk (List.replicate 206 'a')]

/-! ## Theorems -/

theorem and_bit_ne_zero (n k : Nat) : n &&& 2 ^ k ≠ 0 ↔ n.testBit k = true := by
  rw [Nat.and_two_pow]
  cases h : n.testBit k <;> simp

/-- C8: for every service type value (in particular every 32-bit one)
`GetSvcTypeStr` answers by the first set bit in the order kernel driver (bit 0,
0x1), file system driver (bit 1, 0x2), own process (bit 4, 0x10), shared
process (bit 5, 0x20), the two process labels being the interactive ones when
bit 8 (0x100) is set, and "Unknown type" when none of the four is set. -/
theorem GetSvcTypeStr_priority (svctype : Nat) :
    (svctype.testBit 0 = true → GetSvcTypeStr svctype = "Kernel driver") ∧
    (svctype.testBit 0 = false → svctype.testBit 1 = true →
      GetSvcTypeStr svctype = "File system driver") ∧
    (svctype.testBit 0 = false → svctype.testBit 1 = false → svctype.testBit 4 = true →
      GetSvcTypeStr svctype =
        if svctype.testBit 8 then "Interactive individual process"
        else "Individual process") ∧
    (svctype.testBit 0 = false → svctype.testBit 1 = false → svctype.testBit 4 = false →
      svctype.testBit 5 = true →
      GetSvcTypeStr svctype =
        if svctype.testBit 8 then "Interactive shared process" else "Shared process") ∧
    (svctype.testBit 0 = false → svctype.testBit 1 = false → svctype.testBit 4 = false →
      svctype.testBit 5 = false → GetSvcTypeStr svctype = "Unknown type") := by
  have e0 : (svctype &&& 1 ≠ 0) = (svctype.testBit 0 = true) :=
    propext (and_bit_ne_zero svctype 0)
  have e1 : (svctype &&& 2 ≠ 0) = (svctype.testBit 1 = true) :=
    propext (and_bit_ne_zero svctype 1)
  have e4 : (svctype &&& 16 ≠ 0) = (svctype.testBit 4 = true) :=
    propext (and_bit_ne_zero svctype 4)
  have e5 : (svctype &&& 32 ≠ 0) = (svctype.testBit 5 = true) :=
    propext (and_bit_ne_zero svctype 5)
  have e8 : (svctype &&& 256 ≠ 0) = (svctype.testBit 8 = true) :=
    propext (and_bit_ne_zero svctype 8)
  unfold GetSvcTypeStr SERVICE_KERNEL_DRIVER SERVICE_FILE_SYSTEM_DRIVER
    SERVICE_WIN32_OWN_PROCESS SERVICE_WIN32_SHARE_PROCESS SERVICE_INTERACTIVE_PROCESS
  simp only [e0, e1, e4, e5, e8]
  cases svctype.testBit 0 <;> cases svctype.testBit 1 <;> cases svctype.testBit 4 <;>
    cases svctype.testBit 5 <;> cases svctype.testBit 8 <;> simp


/-- C1: `DriverLoad` fails when the service control manager does not open.
Otherwise it calls `CreateService`; on the error "service already exists" it
calls `OpenService`; any other creation failure, or a failed open, returns 0
without a `StartService` call.  Once it holds a service handle (from the
creation or from the open) it calls `StartService` and returns non-zero
exactly when the start succeeds or fails with "service already running". -/
theorem DriverLoad_contract (verbose : Nat) (servicename modulepath : String) (os : Os) :
    (os.openSCManager.val = 0 →
      (DriverLoad verbose servicename modulepath os).ret = 0 ∧
      (DriverLoad verbose servicename modulepath os).trace.any isCreate = false ∧
      (DriverLoad verbose servicename modulepath os).trace.any isStart = false) ∧
    (os.openSCManager.val ≠ 0 →
      Event.CreateService os.openSCManager.val servicename servicename SERVICE_ALL_ACCESS
        SERVICE_KERNEL_DRIVER SERVICE_DEMAND_START SERVICE_ERROR_NORMAL modulepath
        os.createService.val ∈ (DriverLoad verbose servicename modulepath os).trace) ∧
    (os.openSCManager.val ≠ 0 → os.createService.val = 0 →
      os.createService.err = ERROR_SERVICE_EXISTS →
      Event.OpenService os.openSCManager.val servicename SERVICE_ALL_ACCESS
        os.openService.val ∈ (DriverLoad verbose servicename modulepath os).trace) ∧
    (os.openSCManager.val ≠ 0 → os.createService.val = 0 →
      os.createService.err ≠ ERROR_SERVICE_EXISTS →
      (DriverLoad verbose servicename modulepath os).ret = 0 ∧
      (DriverLoad verbose servicename modulepath os).trace.any isOpenService = false ∧
      (DriverLoad verbose servicename modulepath os).trace.any isStart = false) ∧
    (os.openSCManager.val ≠ 0 → os.createService.val = 0 →
      os.createService.err = ERROR_SERVICE_EXISTS → os.openService.val = 0 →
      (DriverLoad verbose servicename modulepath os).ret = 0 ∧
      (DriverLoad verbose servicename modulepath os).trace.any isStart = false) ∧
    (os.openSCManager.val ≠ 0 →
      (os.createService.val ≠ 0 ∨
        (os.createService.err = ERROR_SERVICE_EXISTS ∧ os.openService.val ≠ 0)) →
      Event.StartService
          (if os.createService.val ≠ 0 then os.createService.val else os.openService.val)
          os.startService.val ∈ (DriverLoad verbose servicename modulepath os).trace ∧
      ((DriverLoad verbose servicename modulepath os).ret ≠ 0 ↔
        (os.startService.val ≠ 0 ∨
          os.startService.err = ERROR_SERVICE_ALREADY_RUNNING))) := by
  refine ⟨?_, ?_, ?_, ?_, ?_, ?_⟩
  · intro h
    simp [DriverLoad, h, isCreate, isStart]
  · intro h
    unfold DriverLoad DriverLoad_start
    simp only [h, if_false]
    split_ifs <;> simp
  · intro h hc he
    unfold DriverLoad DriverLoad_start
    simp only [h, hc, he, if_false, if_true]
    split_ifs <;> simp
  · intro h hc he
    simp [DriverLoad, h, hc, he, isOpenService, isStart]
  · intro h hc he ho
    unfold DriverLoad
    simp only [h, hc, he, ho, if_false, if_true]
    split_ifs <;> simp [isStart]
  · intro h hh
    by_cases hc : os.createService.val = 0
    · rcases hh with hh | ⟨he, ho⟩
      · exact absurd hc hh
      · unfold DriverLoad DriverLoad_start
        simp only [h, hc, he, ho, if_false, if_true]
        split_ifs <;> simp_all
    · unfold DriverLoad DriverLoad_start
      simp only [h, hc, if_false]
      split_ifs <;> simp_all

/-- C2: when the service control manager and the service record both open,
`DriverUnload` sends the stop control right after the two opens.  Without
stop-only it then calls `DeleteService`, whatever the stop returned, and
returns what that call returned; with stop-only it never calls `DeleteService`
and returns 1 when the stop succeeded and 0 when it failed. -/
theorem DriverUnload_contract (verbose do_stop_only : Nat) (servicename : String) (os : Os)
    (hscm : os.openSCManager.val ≠ 0) (hsvc : os.openService.val ≠ 0) :
    (∃ rest, (DriverUnload verbose do_stop_only servicename os).trace =
      [Event.OpenSCManager SC_MANAGER_ALL_ACCESS os.openSCManager.val,
       Event.OpenService os.openSCManager.val servicename SERVICE_ALL_ACCESS
         os.openService.val,
       Event.ControlService os.openService.val SERVICE_CONTROL_STOP os.controlService.val]
      ++ rest) ∧
    (do_stop_only = 0 →
      Event.DeleteService os.openService.val os.deleteService.val ∈
        (DriverUnload verbose do_stop_only servicename os).trace ∧
      (DriverUnload verbose do_stop_only servicename os).ret = os.deleteService.val) ∧
    (do_stop_only ≠ 0 →
      (DriverUnload verbose do_stop_only servicename os).trace.any isDelete = false ∧
      (DriverUnload verbose do_stop_only servicename os).ret =
        if os.controlService.val = 0 then 0 else 1) := by
  refine ⟨?_, ?_, ?_⟩
  · unfold DriverUnload
    simp only [hscm, hsvc, if_false]
    split_ifs <;> simp
  · intro h
    unfold DriverUnload
    simp only [hscm, hsvc, h, if_false, if_true]
    split_ifs <;> simp
  · intro h
    unfold DriverUnload
    simp only [hscm, hsvc, h, if_false]
    split_ifs <;> simp [isDelete]

/-- What `DriverQuery` does with a non-empty name once the service control
manager is open, for every handle and last-error value `OpenService` can leave:
it returns non-zero exactly when the last-error value is "service does not
exist" (whatever the handle), or it is another value, the handle is not null
and `QueryServiceStatus` succeeded. -/
theorem DriverQuery_named (servicename : String) (os : Os)
    (hname : servicename ≠ "") (hscm : os.openSCManager.val ≠ 0) :
    (os.openService.err = ERROR_SERVICE_DOES_NOT_EXIST →
      (DriverQuery servicename os).ret = 1 ∧
      stdoutOf (DriverQuery servicename os).trace =
        [Event.print .out "service '%s' does not exist\n" [.str servicename]] ∧
      stderrOf (DriverQuery servicename os).trace = []) ∧
    (os.openService.err ≠ ERROR_SERVICE_DOES_NOT_EXIST → os.openService.val ≠ 0 →
      os.queryServiceStatus.val ≠ 0 →
      (DriverQuery servicename os).ret = 1 ∧
      stdoutOf (DriverQuery servicename os).trace =
        [Event.print .out "%s\n\tType:   %s\n\tStatus: %s\n"
          [.str servicename, .str (GetSvcTypeStr os.sstat.dwServiceType),
           .str (GetSvcStateStr os.sstat.dwCurrentState)]] ∧
      stderrOf (DriverQuery servicename os).trace = []) ∧
    (os.openService.err ≠ ERROR_SERVICE_DOES_NOT_EXIST → os.openService.val = 0 →
      (DriverQuery servicename os).ret = 0) ∧
    (os.openService.err ≠ ERROR_SERVICE_DOES_NOT_EXIST → os.openService.val ≠ 0 →
      os.queryServiceStatus.val = 0 → (DriverQuery servicename os).ret = 0) ∧
    ((DriverQuery servicename os).ret ≠ 0 ↔
      (os.openService.err = ERROR_SERVICE_DOES_NOT_EXIST ∨
        (os.openService.val ≠ 0 ∧ os.queryServiceStatus.val ≠ 0))) := by
  refine ⟨?_, ?_, ?_, ?_, ?_⟩
  · intro h
    unfold DriverQuery DriverQuery_fail
    simp only [hscm, hname, h, if_false, if_true, ne_eq, not_false_eq_true]
    split_ifs <;> simp [stdoutOf, isStdout, stderrOf, isStderr]
  · intro h hv hq
    unfold DriverQuery DriverQuery_fail
    simp only [hscm, hname, h, hv, hq, if_false, if_true, ne_eq, not_false_eq_true]
    simp [stdoutOf, isStdout, stderrOf, isStderr]
  · intro h hv
    simp [DriverQuery, DriverQuery_fail, hscm, hname, h, hv]
  · intro h hv hq
    simp [DriverQuery, DriverQuery_fail, hscm, hname, h, hv, hq]
  · unfold DriverQuery DriverQuery_fail
    simp only [hscm, hname, if_false, if_true, ne_eq, not_false_eq_true]
    split_ifs <;> simp_all


/-- C3 fails on the code: `OpenService` returns the handle 102 while
`GetLastError()` yields 1060, the value an earlier failed call left.  The
record opens and its status could be fetched, yet `DriverQuery` reads the
last-error value before it tests the handle (lines 316-322): it never calls
`QueryServiceStatus`, prints "service 'beep' does not exist" and returns 1;
it does the same when the status fetch would have failed. -/
theorem DriverQuery_stale_last_error :
    osStaleError.openSCManager.val ≠ 0 ∧ osStaleError.openService.val = 102 ∧
    osStaleError.queryServiceStatus.val ≠ 0 ∧
    (DriverQuery "beep" osStaleError).ret = 1 ∧
    (DriverQuery "beep" osStaleError).trace.any isQueryStatus = false ∧
    stdoutOf (DriverQuery "beep" osStaleError).trace =
      [Event.print .out "service '%s' does not exist\n" [.str "beep"]] ∧
    (DriverQuery "beep" { osStaleError with queryServiceStatus := ⟨0, 5⟩ }).ret = 1 := by
  decide

theorem stdoutOf_enumBlocks (l : List EnumServiceStatus) :
    stdoutOf (l.map enumBlock) = l.map enumBlock := by
  unfold stdoutOf
  rw [List.filter_eq_self]
  intro e he
  rw [List.mem_map] at he
  obtain ⟨s, _, rfl⟩ := he
  rfl

theorem enumCalls_enumBlocks (l : List EnumServiceStatus) :
    (l.map enumBlock).filter isEnum = [] := by
  rw [List.filter_eq_nil_iff]
  intro e he
  rw [List.mem_map] at he
  obtain ⟨s, _, rfl⟩ := he
  simp [enumBlock, isEnum]

/-- C9 as stated fails: the sizing call reports `ERROR_MORE_DATA`, which is not
"insufficient buffer", and `DriverQuery` still enumerates and returns 1. -/
theorem DriverQuery_enum_more_data :
    osMoreData.openSCManager.val ≠ 0 ∧
    osMoreData.enumSize.err ≠ ERROR_INSUFFICIENT_BUFFER ∧
    enumCalls (DriverQuery "" osMoreData).trace = 2 ∧
    (DriverQuery "" osMoreData).ret = 1 := by
  decide

/-- C9 amended: with an empty name and the service control manager open,
`DriverQuery` makes the real enumeration call exactly when the zero-length
sizing call reports "insufficient buffer" or "more data"; for every other
report it returns 0 after the sizing call alone.  It returns 0 when the real
call fails, and otherwise returns 1 with one block per returned record on
standard output, in the order of the records. -/
theorem DriverQuery_enum (os : Os) (hscm : os.openSCManager.val ≠ 0) :
    (enumCalls (DriverQuery "" os).trace = 2 ↔
      (os.enumSize.err = ERROR_INSUFFICIENT_BUFFER ∨ os.enumSize.err = ERROR_MORE_DATA)) ∧
    (¬(os.enumSize.err = ERROR_INSUFFICIENT_BUFFER ∨ os.enumSize.err = ERROR_MORE_DATA) →
      (DriverQuery "" os).ret = 0 ∧ enumCalls (DriverQuery "" os).trace = 1) ∧
    ((os.enumSize.err = ERROR_INSUFFICIENT_BUFFER ∨ os.enumSize.err = ERROR_MORE_DATA) →
      os.enumReal.val = 0 → (DriverQuery "" os).ret = 0) ∧
    ((os.enumSize.err = ERROR_INSUFFICIENT_BUFFER ∨ os.enumSize.err = ERROR_MORE_DATA) →
      os.enumReal.val ≠ 0 →
      (DriverQuery "" os).ret = 1 ∧
      stdoutOf (DriverQuery "" os).trace = os.services.map enumBlock) := by
  have hb := stdoutOf_enumBlocks os.services
  have hc := enumCalls_enumBlocks os.services
  unfold stdoutOf enumBlock at hb
  unfold enumBlock at hc
  by_cases h : os.enumSize.err = ERROR_INSUFFICIENT_BUFFER ∨ os.enumSize.err = ERROR_MORE_DATA
  · have h2 : ¬(os.enumSize.err ≠ ERROR_INSUFFICIENT_BUFFER ∧
        os.enumSize.err ≠ ERROR_MORE_DATA) := by
      intro hh
      rcases h with h | h
      · exact hh.1 h
      · exact hh.2 h
    unfold DriverQuery DriverQuery_fail
    simp only [hscm, h2, if_false, ne_eq, not_true_eq_false]
    by_cases hr : os.enumReal.val = 0
    · simp [hr, h, enumCalls, isEnum]
    · simp [hr, h, enumCalls, isEnum, stdoutOf, isStdout, List.filter_append, hb, hc, enumBlock]
  · have h2 : os.enumSize.err ≠ ERROR_INSUFFICIENT_BUFFER ∧
        os.enumSize.err ≠ ERROR_MORE_DATA := by
      constructor
      · intro hh
        exact h (Or.inl hh)
      · intro hh
        exact h (Or.inr hh)
    unfold DriverQuery DriverQuery_fail
    simp only [hscm, h2, if_false, if_true, ne_eq, not_true_eq_false]
    simp [h, enumCalls, isEnum]


theorem Resources.run_append (r : Resources) (t1 t2 : List Event) :
    r.run (t1 ++ t2) = (r.run t1).bind (fun r2 => r2.run t2) := by
  induction t1 generalizing r with
  | nil => simp [Resources.run]
  | cons e es ih =>
    simp only [List.cons_append, Resources.run]
    cases h : r.step e with
    | none => simp
    | some r2 => simp [ih]

theorem Resources.run_enumBlocks (r : Resources) (l : List EnumServiceStatus) :
    r.run (l.map enumBlock) = some r := by
  induction l with
  | nil => simp [Resources.run]
  | cons s ss ih => simp [Resources.run, Resources.step, enumBlock] at ih ⊢; exact ih

theorem acquired_append (t1 t2 : List Event) :
    acquired (t1 ++ t2) = acquired t1 + acquired t2 := by
  induction t1 with
  | nil => simp [acquired]
  | cons e es ih => cases e <;> simp [acquired, ih, Nat.add_assoc]

theorem released_append (t1 t2 : List Event) :
    released (t1 ++ t2) = released t1 + released t2 := by
  induction t1 with
  | nil => simp [released]
  | cons e es ih => cases e <;> simp [released, ih, Nat.add_assoc]

theorem acquired_enumBlocks (l : List EnumServiceStatus) : acquired (l.map enumBlock) = 0 := by
  induction l with
  | nil => simp [acquired]
  | cons s ss ih => simp [acquired, enumBlock] at ih ⊢; exact ih

theorem released_enumBlocks (l : List EnumServiceStatus) : released (l.map enumBlock) = 0 := by
  induction l with
  | nil => simp [released]
  | cons s ss ih => simp [released, enumBlock] at ih ⊢; exact ih


theorem erase_second (a b : Nat) (l : List Nat) (h : ¬a = b) :
    (b :: a :: l).erase a = b :: l := by
  have h2 : ¬b = a := fun e => h e.symm
  simp [List.erase_cons, h2]

theorem DriverLoad_resources (verbose : Nat) (servicename modulepath : String) (os : Os)
    (r : Resources) :
    r.run (DriverLoad verbose servicename modulepath os).trace = some r ∧
    released (DriverLoad verbose servicename modulepath os).trace =
      acquired (DriverLoad verbose servicename modulepath os).trace := by
  by_cases h1 : os.openSCManager.val = 0 <;> by_cases h2 : os.createService.val = 0 <;>
  by_cases h3 : os.createService.err = ERROR_SERVICE_EXISTS <;>
  by_cases h4 : os.openService.val = 0 <;> by_cases h5 : os.startService.val = 0 <;>
  by_cases h6 : os.startService.err = ERROR_SERVICE_ALREADY_RUNNING <;>
  by_cases hv : verbose = 0 <;>
  simp [DriverLoad, DriverLoad_start, Resources.run, Resources.step, acquired, released, *]

theorem DriverUnload_resources (verbose do_stop_only : Nat) (servicename : String) (os : Os)
    (r : Resources) :
    r.run (DriverUnload verbose do_stop_only servicename os).trace = some r ∧
    released (DriverUnload verbose do_stop_only servicename os).trace =
      acquired (DriverUnload verbose do_stop_only servicename os).trace := by
  by_cases hab : os.openSCManager.val = os.openService.val <;>
  by_cases h1 : os.openSCManager.val = 0 <;>
  by_cases h4 : os.openService.val = 0 <;> by_cases h5 : os.controlService.val = 0 <;>
  by_cases h6 : os.deleteService.val = 0 <;> by_cases hs : do_stop_only = 0 <;>
  by_cases hv : verbose = 0 <;>
  simp [DriverUnload, Resources.run, Resources.step, acquired, released, erase_second, *]

theorem DriverQuery_resources (servicename : String) (os : Os) (r : Resources) :
    r.run (DriverQuery servicename os).trace = some r ∧
    released (DriverQuery servicename os).trace =
      acquired (DriverQuery servicename os).trace := by
  have e1 := Resources.run_enumBlocks
  have e2 := acquired_enumBlocks os.services
  have e3 := released_enumBlocks os.services
  unfold enumBlock at e1 e2 e3
  by_cases h1 : os.openSCManager.val = 0
  · simp [DriverQuery, Resources.run, Resources.step, acquired, released, h1]
  · by_cases hn : servicename = ""
    · by_cases h7 : os.enumSize.err = ERROR_INSUFFICIENT_BUFFER <;>
      by_cases h8 : os.enumSize.err = ERROR_MORE_DATA <;>
      by_cases h9 : os.enumReal.val = 0 <;>
      by_cases h10 : os.mallocRet = 0 <;>
      simp [DriverQuery, DriverQuery_fail, Resources.run, Resources.step, acquired, released,
        Resources.run_append, acquired_append, released_append, e1, e2, e3, *]
    · by_cases h4 : os.openService.val = 0 <;>
      by_cases h5 : os.openService.err = ERROR_SERVICE_DOES_NOT_EXIST <;>
      by_cases h6 : os.queryServiceStatus.val = 0 <;>
      simp [DriverQuery, DriverQuery_fail, Resources.run, Resources.step, acquired, released, *]

/-- C4: whatever the system calls return, and whatever handles and buffers are
held before the call, the events of `DriverLoad`, of `DriverUnload` and of
`DriverQuery` release only what is held and leave exactly the handles and
buffers held before; each makes as many releasing calls as it made acquiring
ones. -/
theorem controllers_release_what_they_acquire (verbose do_stop_only : Nat)
    (servicename modulepath : String) (os : Os) (r : Resources) :
    (r.run (DriverLoad verbose servicename modulepath os).trace = some r ∧
      released (DriverLoad verbose servicename modulepath os).trace =
        acquired (DriverLoad verbose servicename modulepath os).trace) ∧
    (r.run (DriverUnload verbose do_stop_only servicename os).trace = some r ∧
      released (DriverUnload verbose do_stop_only servicename os).trace =
        acquired (DriverUnload verbose do_stop_only servicename os).trace) ∧
    (r.run (DriverQuery servicename os).trace = some r ∧
      released (DriverQuery servicename os).trace =
        acquired (DriverQuery servicename os).trace) :=
  ⟨DriverLoad_resources verbose servicename modulepath os r,
   DriverUnload_resources verbose do_stop_only servicename os r,
   DriverQuery_resources servicename os r⟩


theorem stdout_enumBlocks_plain (l : List EnumServiceStatus) :
    (l.map enumBlock).filter isDiagnostic = [] := by
  rw [List.filter_eq_nil_iff]
  intro e he
  rw [List.mem_map] at he
  obtain ⟨s, _, rfl⟩ := he
  simp only [enumBlock, isDiagnostic]
  decide

theorem DriverLoad_diagnostics (verbose : Nat) (servicename modulepath : String) (os : Os) :
    ((DriverLoad verbose servicename modulepath os).ret = 0 →
      ∃ e, stderrOf (DriverLoad verbose servicename modulepath os).trace = [e] ∧
        isErrorLine e = true) ∧
    (stdoutOf (DriverLoad verbose servicename modulepath os).trace).filter isDiagnostic
      = [] := by
  by_cases h1 : os.openSCManager.val = 0 <;> by_cases h2 : os.createService.val = 0 <;>
  by_cases h3 : os.createService.err = ERROR_SERVICE_EXISTS <;>
  by_cases h4 : os.openService.val = 0 <;> by_cases h5 : os.startService.val = 0 <;>
  by_cases h6 : os.startService.err = ERROR_SERVICE_ALREADY_RUNNING <;>
  by_cases hv : verbose = 0 <;>
  simp [DriverLoad, DriverLoad_start, stderrOf, stdoutOf, isStderr, isStdout, isErrorLine,
    isDiagnostic, *] <;> decide


theorem DriverQuery_diagnostics (servicename : String) (os : Os) :
    ((DriverQuery servicename os).ret = 0 →
      ∃ e, stderrOf (DriverQuery servicename os).trace = [e] ∧ isErrorLine e = true) ∧
    (stdoutOf (DriverQuery servicename os).trace).filter isDiagnostic = [] := by
  have e1 := stdoutOf_enumBlocks os.services
  have e2 := stdout_enumBlocks_plain os.services
  have e3 : stderrOf (os.services.map enumBlock) = [] := by
    unfold stderrOf
    rw [List.filter_eq_nil_iff]
    intro e he
    rw [List.mem_map] at he
    obtain ⟨s, _, rfl⟩ := he
    simp [enumBlock, isStderr]
  unfold stdoutOf at e1
  unfold stderrOf at e3
  unfold enumBlock at e1 e2 e3
  by_cases h1 : os.openSCManager.val = 0
  · simp [DriverQuery, stderrOf, stdoutOf, isStderr, isStdout, isErrorLine, isDiagnostic, h1]
    decide
  · by_cases hn : servicename = ""
    · by_cases h7 : os.enumSize.err = ERROR_INSUFFICIENT_BUFFER <;>
      by_cases h8 : os.enumSize.err = ERROR_MORE_DATA <;>
      by_cases h9 : os.enumReal.val = 0 <;>
      simp [DriverQuery, DriverQuery_fail, stderrOf, stdoutOf, isStderr, isStdout,
        isErrorLine, isDiagnostic, List.filter_append, e1, e2, e3, *] <;> decide
    · by_cases h4 : os.openService.val = 0 <;>
      by_cases h5 : os.openService.err = ERROR_SERVICE_DOES_NOT_EXIST <;>
      by_cases h6 : os.queryServiceStatus.val = 0 <;>
      simp [DriverQuery, DriverQuery_fail, stderrOf, stdoutOf, isStderr, isStdout,
        isErrorLine, isDiagnostic, *] <;> decide

theorem DriverUnload_diagnostics (verbose do_stop_only : Nat) (servicename : String)
    (os : Os) :
    ((DriverUnload verbose do_stop_only servicename os).ret = 0 →
      (os.openSCManager.val = 0 ∨ os.openService.val = 0 ∨ do_stop_only = 0) →
      ∃ e, stderrOf (DriverUnload verbose do_stop_only servicename os).trace = [e] ∧
        isErrorLine e = true) ∧
    (os.openSCManager.val ≠ 0 → os.openService.val ≠ 0 → do_stop_only ≠ 0 →
      ((DriverUnload verbose do_stop_only servicename os).ret = 0 ↔
        os.controlService.val = 0) ∧
      stderrOf (DriverUnload verbose do_stop_only servicename os).trace = []) ∧
    (stdoutOf (DriverUnload verbose do_stop_only servicename os).trace).filter isDiagnostic
      = (if os.openSCManager.val ≠ 0 ∧ os.openService.val ≠ 0 ∧
            os.controlService.val = 0 ∧ verbose ≠ 0
          then [stopWarning os.controlService.err] else []) := by
  by_cases h1 : os.openSCManager.val = 0 <;>
  by_cases h4 : os.openService.val = 0 <;> by_cases h5 : os.controlService.val = 0 <;>
  by_cases h6 : os.deleteService.val = 0 <;> by_cases hs : do_stop_only = 0 <;>
  by_cases hv : verbose = 0 <;>
  simp [DriverUnload, stderrOf, stdoutOf, isStderr, isStdout, isErrorLine, isDiagnostic,
    stopWarning, *] <;> decide

/-- C6 as stated fails: with stop-only set and verbosity 0, a failed stop makes
`DriverUnload` return 0 with nothing written to standard error; at verbosity 1
the one diagnostic of that run is the warning, and it is on standard output. -/
theorem DriverUnload_stop_only_silent :
    (DriverUnload 0 1 "drv" osStopFails).ret = 0 ∧
    stderrOf (DriverUnload 0 1 "drv" osStopFails).trace = [] ∧
    stdoutOf (DriverUnload 0 1 "drv" osStopFails).trace = [] ∧
    (DriverUnload 1 1 "drv" osStopFails).ret = 0 ∧
    stderrOf (DriverUnload 1 1 "drv" osStopFails).trace = [] ∧
    stdoutOf (DriverUnload 1 1 "drv" osStopFails).trace = [stopWarning 1062] := by
  decide

theorem DriverLoad_failure_line (verbose : Nat) (servicename modulepath : String) (os : Os)
    (h : (DriverLoad verbose servicename modulepath os).ret = 0) :
    (os.openSCManager.val = 0 ∧
      stderrOf (DriverLoad verbose servicename modulepath os).trace =
        [Event.print .err "error (%d): failed to open service control manager\n"
          [.int os.openSCManager.err]]) ∨
    (os.openSCManager.val ≠ 0 ∧ os.createService.val = 0 ∧
      os.createService.err ≠ ERROR_SERVICE_EXISTS ∧
      stderrOf (DriverLoad verbose servicename modulepath os).trace =
        [Event.print .err "error (%d): failed to create service\n"
          [.int os.createService.err]]) ∨
    (os.openSCManager.val ≠ 0 ∧ os.createService.val = 0 ∧
      os.createService.err = ERROR_SERVICE_EXISTS ∧ os.openService.val = 0 ∧
      stderrOf (DriverLoad verbose servicename modulepath os).trace =
        [Event.print .err "error (%d): failed to open service\n"
          [.int os.openService.err]]) ∨
    (os.openSCManager.val ≠ 0 ∧
      (os.createService.val ≠ 0 ∨
        (os.createService.err = ERROR_SERVICE_EXISTS ∧ os.openService.val ≠ 0)) ∧
      os.startService.val = 0 ∧ os.startService.err ≠ ERROR_SERVICE_ALREADY_RUNNING ∧
      stderrOf (DriverLoad verbose servicename modulepath os).trace =
        [Event.print .err "error (%d): failed to start service\n"
          [.int os.startService.err]]) := by
  revert h
  by_cases h1 : os.openSCManager.val = 0 <;> by_cases h2 : os.createService.val = 0 <;>
  by_cases h3 : os.createService.err = ERROR_SERVICE_EXISTS <;>
  by_cases h4 : os.openService.val = 0 <;> by_cases h5 : os.startService.val = 0 <;>
  by_cases h6 : os.startService.err = ERROR_SERVICE_ALREADY_RUNNING <;>
  by_cases hv : verbose = 0 <;>
  simp [DriverLoad, DriverLoad_start, stderrOf, isStderr, *]

theorem DriverUnload_failure_line (verbose do_stop_only : Nat) (servicename : String)
    (os : Os) (h : (DriverUnload verbose do_stop_only servicename os).ret = 0) :
    (os.openSCManager.val = 0 ∧
      stderrOf (DriverUnload verbose do_stop_only servicename os).trace =
        [Event.print .err "error (%d): failed to open service control manager\n"
          [.int os.openSCManager.err]]) ∨
    (os.openSCManager.val ≠ 0 ∧ os.openService.val = 0 ∧
      stderrOf (DriverUnload verbose do_stop_only servicename os).trace =
        [Event.print .err "error (%d): failed to open service\n"
          [.int os.openService.err]]) ∨
    (os.openSCManager.val ≠ 0 ∧ os.openService.val ≠ 0 ∧ do_stop_only = 0 ∧
      os.deleteService.val = 0 ∧
      stderrOf (DriverUnload verbose do_stop_only servicename os).trace =
        [Event.print .err "error (%d): failed to delete service\n"
          [.int os.deleteService.err]]) ∨
    (os.openSCManager.val ≠ 0 ∧ os.openService.val ≠ 0 ∧ do_stop_only ≠ 0 ∧
      os.controlService.val = 0 ∧
      stderrOf (DriverUnload verbose do_stop_only servicename os).trace = []) := by
  revert h
  by_cases h1 : os.openSCManager.val = 0 <;>
  by_cases h4 : os.openService.val = 0 <;> by_cases h5 : os.controlService.val = 0 <;>
  by_cases h6 : os.deleteService.val = 0 <;> by_cases hs : do_stop_only = 0 <;>
  by_cases hv : verbose = 0 <;>
  simp [DriverUnload, stderrOf, isStderr, *]

theorem DriverQuery_failure_line (servicename : String) (os : Os)
    (h : (DriverQuery servicename os).ret = 0) :
    (os.openSCManager.val = 0 ∧
      stderrOf (DriverQuery servicename os).trace =
        [Event.print .err "error (%d): failed to open service control manager\n"
          [.int os.openSCManager.err]]) ∨
    (os.openSCManager.val ≠ 0 ∧ servicename ≠ "" ∧
      os.openService.err ≠ ERROR_SERVICE_DOES_NOT_EXIST ∧ os.openService.val = 0 ∧
      stderrOf (DriverQuery servicename os).trace =
        [Event.print .err "error (%d): failed to open service\n"
          [.int os.openService.err]]) ∨
    (os.openSCManager.val ≠ 0 ∧ servicename ≠ "" ∧
      os.openService.err ≠ ERROR_SERVICE_DOES_NOT_EXIST ∧ os.openService.val ≠ 0 ∧
      os.queryServiceStatus.val = 0 ∧
      stderrOf (DriverQuery servicename os).trace =
        [Event.print .err "error (%d): failed to query service status\n"
          [.int os.queryServiceStatus.err]]) ∨
    (os.openSCManager.val ≠ 0 ∧ servicename = "" ∧
      os.enumSize.err ≠ ERROR_INSUFFICIENT_BUFFER ∧ os.enumSize.err ≠ ERROR_MORE_DATA ∧
      stderrOf (DriverQuery servicename os).trace =
        [Event.print .err "error (%d): failed to query service status size\n"
          [.int os.enumSize.err]]) ∨
    (os.openSCManager.val ≠ 0 ∧ servicename = "" ∧
      (os.enumSize.err = ERROR_INSUFFICIENT_BUFFER ∨ os.enumSize.err = ERROR_MORE_DATA) ∧
      os.enumReal.val = 0 ∧
      stderrOf (DriverQuery servicename os).trace =
        [Event.print .err "error (%d): failed to enumerate services\n"
          [.int os.enumReal.err]]) := by
  revert h
  by_cases h1 : os.openSCManager.val = 0
  · simp [DriverQuery, stderrOf, isStderr, h1]
  · by_cases hn : servicename = ""
    · by_cases h7 : os.enumSize.err = ERROR_INSUFFICIENT_BUFFER <;>
      by_cases h8 : os.enumSize.err = ERROR_MORE_DATA <;>
      by_cases h9 : os.enumReal.val = 0 <;>
      simp [DriverQuery, DriverQuery_fail, stderrOf, isStderr, *]
    · by_cases h4 : os.openService.val = 0 <;>
      by_cases h5 : os.openService.err = ERROR_SERVICE_DOES_NOT_EXIST <;>
      by_cases h6 : os.queryServiceStatus.val = 0 <;>
      simp [DriverQuery, DriverQuery_fail, stderrOf, isStderr, *]

/-- C6 amended: whenever `DriverLoad` or `DriverQuery` returns 0, and whenever
`DriverUnload` returns 0 after a failed open or in a run without stop-only,
standard error holds exactly one line, `error (<code>): failed to <step>`,
where the step is the call that failed (open service control manager, create
service, open service, start service, delete service, query service status,
query service status size, enumerate services) and the code is the last-error
value of that call.  With stop-only set and both opens successful,
`DriverUnload` returns 0 exactly when the stop control failed, and then writes
nothing to standard error.  The only diagnostic ever written to standard
output is the warning of a failed stop control in `DriverUnload`, written when
verbosity is not 0. -/
theorem controllers_diagnostics (verbose do_stop_only : Nat)
    (servicename modulepath : String) (os : Os) :
    (((DriverLoad verbose servicename modulepath os).ret = 0 →
        ∃ e, stderrOf (DriverLoad verbose servicename modulepath os).trace = [e] ∧
          isErrorLine e = true) ∧
      (stdoutOf (DriverLoad verbose servicename modulepath os).trace).filter isDiagnostic
        = []) ∧
    (((DriverQuery servicename os).ret = 0 →
        ∃ e, stderrOf (DriverQuery servicename os).trace = [e] ∧ isErrorLine e = true) ∧
      (stdoutOf (DriverQuery servicename os).trace).filter isDiagnostic = []) ∧
    (((DriverUnload verbose do_stop_only servicename os).ret = 0 →
        (os.openSCManager.val = 0 ∨ os.openService.val = 0 ∨ do_stop_only = 0) →
        ∃ e, stderrOf (DriverUnload verbose do_stop_only servicename os).trace = [e] ∧
          isErrorLine e = true) ∧
      (os.openSCManager.val ≠ 0 → os.openService.val ≠ 0 → do_stop_only ≠ 0 →
        ((DriverUnload verbose do_stop_only servicename os).ret = 0 ↔
          os.controlService.val = 0) ∧
        stderrOf (DriverUnload verbose do_stop_only servicename os).trace = []) ∧
      (stdoutOf (DriverUnload verbose do_stop_only servicename os).trace).filter
          isDiagnostic
        = (if os.openSCManager.val ≠ 0 ∧ os.openService.val ≠ 0 ∧
              os.controlService.val = 0 ∧ verbose ≠ 0
            then [stopWarning os.controlService.err] else [])) ∧
    ((DriverLoad verbose servicename modulepath os).ret = 0 →
      (os.openSCManager.val = 0 ∧
        stderrOf (DriverLoad verbose servicename modulepath os).trace =
          [Event.print .err "error (%d): failed to open service control manager\n"
            [.int os.openSCManager.err]]) ∨
      (os.openSCManager.val ≠ 0 ∧ os.createService.val = 0 ∧
        os.createService.err ≠ ERROR_SERVICE_EXISTS ∧
        stderrOf (DriverLoad verbose servicename modulepath os).trace =
          [Event.print .err "error (%d): failed to create service\n"
            [.int os.createService.err]]) ∨
      (os.openSCManager.val ≠ 0 ∧ os.createService.val = 0 ∧
        os.createService.err = ERROR_SERVICE_EXISTS ∧ os.openService.val = 0 ∧
        stderrOf (DriverLoad verbose servicename modulepath os).trace =
          [Event.print .err "error (%d): failed to open service\n"
            [.int os.openService.err]]) ∨
      (os.openSCManager.val ≠ 0 ∧
        (os.createService.val ≠ 0 ∨
          (os.createService.err = ERROR_SERVICE_EXISTS ∧ os.openService.val ≠ 0)) ∧
        os.startService.val = 0 ∧ os.startService.err ≠ ERROR_SERVICE_ALREADY_RUNNING ∧
        stderrOf (DriverLoad verbose servicename modulepath os).trace =
          [Event.print .err "error (%d): failed to start service\n"
            [.int os.startService.err]])) ∧
    ((DriverQuery servicename os).ret = 0 →
      (os.openSCManager.val = 0 ∧
        stderrOf (DriverQuery servicename os).trace =
          [Event.print .err "error (%d): failed to open service control manager\n"
            [.int os.openSCManager.err]]) ∨
      (os.openSCManager.val ≠ 0 ∧ servicename ≠ "" ∧
        os.openService.err ≠ ERROR_SERVICE_DOES_NOT_EXIST ∧ os.openService.val = 0 ∧
        stderrOf (DriverQuery servicename os).trace =
          [Event.print .err "error (%d): failed to open service\n"
            [.int os.openService.err]]) ∨
      (os.openSCManager.val ≠ 0 ∧ servicename ≠ "" ∧
        os.openService.err ≠ ERROR_SERVICE_DOES_NOT_EXIST ∧ os.openService.val ≠ 0 ∧
        os.queryServiceStatus.val = 0 ∧
        stderrOf (DriverQuery servicename os).trace =
          [Event.print .err "error (%d): failed to query service status\n"
            [.int os.queryServiceStatus.err]]) ∨
      (os.openSCManager.val ≠ 0 ∧ servicename = "" ∧
        os.enumSize.err ≠ ERROR_INSUFFICIENT_BUFFER ∧ os.enumSize.err ≠ ERROR_MORE_DATA ∧
        stderrOf (DriverQuery servicename os).trace =
          [Event.print .err "error (%d): failed to query service status size\n"
            [.int os.enumSize.err]]) ∨
      (os.openSCManager.val ≠ 0 ∧ servicename = "" ∧
        (os.enumSize.err = ERROR_INSUFFICIENT_BUFFER ∨ os.enumSize.err = ERROR_MORE_DATA) ∧
        os.enumReal.val = 0 ∧
        stderrOf (DriverQuery servicename os).trace =
          [Event.print .err "error (%d): failed to enumerate services\n"
            [.int os.enumReal.err]])) ∧
    ((DriverUnload verbose do_stop_only servicename os).ret = 0 →
      (os.openSCManager.val = 0 ∧
        stderrOf (DriverUnload verbose do_stop_only servicename os).trace =
          [Event.print .err "error (%d): failed to open service control manager\n"
            [.int os.openSCManager.err]]) ∨
      (os.openSCManager.val ≠ 0 ∧ os.openService.val = 0 ∧
        stderrOf (DriverUnload verbose do_stop_only servicename os).trace =
          [Event.print .err "error (%d): failed to open service\n"
            [.int os.openService.err]]) ∨
      (os.openSCManager.val ≠ 0 ∧ os.openService.val ≠ 0 ∧ do_stop_only = 0 ∧
        os.deleteService.val = 0 ∧
        stderrOf (DriverUnload verbose do_stop_only servicename os).trace =
          [Event.print .err "error (%d): failed to delete service\n"
            [.int os.deleteService.err]]) ∨
      (os.openSCManager.val ≠ 0 ∧ os.openService.val ≠ 0 ∧ do_stop_only ≠ 0 ∧
        os.controlService.val = 0 ∧
        stderrOf (DriverUnload verbose do_stop_only servicename os).trace = [])) :=
  ⟨DriverLoad_diagnostics verbose servicename modulepath os,
   DriverQuery_diagnostics servicename os,
   DriverUnload_diagnostics verbose do_stop_only servicename os,
   DriverLoad_failure_line verbose servicename modulepath os,
   DriverQuery_failure_line servicename os,
   DriverUnload_failure_line verbose do_stop_only servicename os⟩

/-! ### C strings -/

theorem cstr_nil : cstr [] = [] := rfl

theorem cstr_cons_nul (p : List Char) : cstr (NUL :: p) = [] := by
  simp [cstr]

theorem cstr_cons (x : Char) (p : List Char) (h : x ≠ NUL) : cstr (x :: p) = x :: cstr p := by
  simp [cstr, h]

theorem cstr_nul_free (p : List Char) : ∀ c ∈ cstr p, c ≠ NUL := by
  intro c hc
  have := List.mem_takeWhile_imp hc
  simpa using this

theorem cstr_of_nul_free (s : List Char) (h : ∀ c ∈ s, c ≠ NUL) : cstr s = s := by
  unfold cstr
  rw [List.takeWhile_eq_self_iff]
  intro x hx
  simpa using h x hx

theorem cstr_idem (p : List Char) : cstr (cstr p) = cstr p :=
  cstr_of_nul_free _ (cstr_nul_free p)

theorem cstr_append (s t : List Char) (h : ∀ c ∈ s, c ≠ NUL) :
    cstr (s ++ t) = s ++ cstr t := by
  unfold cstr
  rw [List.takeWhile_append_of_pos]
  intro x hx
  simpa using h x hx

theorem cstr_append_nul (s t : List Char) (h : ∀ c ∈ s, c ≠ NUL) :
    cstr (s ++ NUL :: t) = s := by
  rw [cstr_append s _ h, cstr_cons_nul, List.append_nil]

theorem cstr_length_le (p : List Char) : (cstr p).length ≤ p.length := by
  unfold cstr
  exact (List.takeWhile_sublist _).length_le

theorem cstr_set (p : List Char) (k : Nat) : cstr (p.set k NUL) = (cstr p).take k := by
  induction p generalizing k with
  | nil => simp [cstr_nil]
  | cons x xs ih =>
    cases k with
    | zero => simp [cstr_cons_nul]
    | succ k =>
      by_cases hx : x = NUL
      · subst hx
        simp [cstr_cons_nul]
      · simp [cstr_cons _ _ hx, ih]

theorem take_nul_free (s : List Char) (n : Nat) (h : ∀ c ∈ s, c ≠ NUL) :
    ∀ c ∈ s.take n, c ≠ NUL :=
  fun c hc => h c (List.mem_of_mem_take hc)

theorem cstr_strncpy (dst src : List Char) (n : Nat) :
    cstr (strncpy dst src n) =
      if strlen src < n then cstr src else (cstr src).take n ++ cstr (dst.drop n) := by
  unfold strncpy strlen
  by_cases h : (cstr src).length < n
  · have h1 : n - (cstr src).length = (n - (cstr src).length - 1) + 1 := by omega
    rw [if_pos h, h1, List.replicate_succ, List.take_of_length_le (by omega),
      List.append_assoc, List.cons_append]
    exact cstr_append_nul _ _ (cstr_nul_free src)
  · have h1 : n - (cstr src).length = 0 := by omega
    rw [if_neg h, h1, List.replicate_zero, List.append_nil]
    exact cstr_append _ _ (take_nul_free _ _ (cstr_nul_free src))

/-- The statement pair `strncpy(dst, src, n); dst[n - 1] = 0;` leaves in `dst`
the first `n - 1` characters of the string at `src`. -/
theorem cstr_strncpy_set (dst src : List Char) (n : Nat) :
    cstr ((strncpy dst src n).set (n - 1) NUL) = (cstr src).take (n - 1) := by
  rw [cstr_set, cstr_strncpy]
  by_cases h : strlen src < n
  · rw [if_pos h]
  · rw [if_neg h]
    unfold strlen at h
    rw [List.take_append_of_le_length (by simp; omega), List.take_take]
    congr 1
    omega

theorem cstr_strcpy (dst src : List Char) : cstr (strcpy dst src) = cstr src := by
  unfold strcpy
  rw [List.append_assoc, List.singleton_append]
  exact cstr_append_nul _ _ (cstr_nul_free src)

theorem length_strcpy (dst src : List Char) :
    (strcpy dst src).length = max dst.length (strlen src + 1) := by
  unfold strcpy strlen
  simp
  omega

theorem cstr_strncat (dst src : List Char) (n : Nat) :
    cstr (strncat dst src n) = cstr dst ++ (cstr src).take n := by
  unfold strncat
  rw [List.append_assoc, List.append_assoc, List.singleton_append, ← List.append_assoc]
  apply cstr_append_nul
  intro c hc
  rw [List.mem_append] at hc
  rcases hc with hc | hc
  · exact cstr_nul_free dst c hc
  · exact take_nul_free _ _ (cstr_nul_free src) c hc

theorem length_strncat (dst src : List Char) (n : Nat) :
    (strncat dst src n).length = max dst.length (strlen dst + min n (strlen src) + 1) := by
  unfold strncat strlen
  simp
  omega


/-! ### The command line -/

theorem afterLast_of_not_mem (c : Char) (s : List Char) (h : c ∉ s) : afterLast c s = s := by
  cases s with
  | nil => rfl
  | cons x xs =>
    simp only [List.mem_cons, not_or] at h
    have hx : ¬x = c := fun e => h.1 e.symm
    simp [afterLast, h.2, hx]

theorem uptoLast_of_not_mem (c : Char) (s : List Char) (h : c ∉ s) : uptoLast c s = s := by
  cases s with
  | nil => rfl
  | cons x xs =>
    simp only [List.mem_cons, not_or] at h
    have hx : ¬x = c := fun e => h.1 e.symm
    simp [uptoLast, h.2, hx]

theorem afterLast_length_le (c : Char) (s : List Char) :
    (afterLast c s).length ≤ s.length := by
  induction s with
  | nil => simp [afterLast]
  | cons x xs ih =>
    unfold afterLast
    split_ifs
    · simp
      omega
    · simp
    · simp

/-- What `strrchr` finds, in terms of the string at `p`: the null pointer when
`c` does not occur; otherwise a position `k` such that the string after it is
the part after the last `c`, and the string cut at `k` is the part before it. -/
theorem strrchr_spec (p : List Char) (c : Char) :
    (strrchr p c = none → c ∉ cstr p) ∧
    (∀ k, strrchr p c = some k →
      c ∈ cstr p ∧
      cstr (p.drop (k + 1)) = afterLast c (cstr p) ∧
      (cstr p).take k = uptoLast c (cstr p)) := by
  induction p with
  | nil => simp [strrchr, cstr_nil]
  | cons x xs ih =>
    by_cases hx : x = NUL
    · subst hx
      simp [strrchr, cstr_cons_nul]
    · rw [cstr_cons _ _ hx]
      cases hr : strrchr xs c with
      | some j =>
        have hj := ih.2 j hr
        simp [strrchr, hx, hr, afterLast, uptoLast, hj.1, hj.2.1, hj.2.2]
      | none =>
        have hn := ih.1 hr
        by_cases hxc : x = c
        · subst hxc
          simp [strrchr, hx, hr, afterLast, uptoLast, hn]
        · have hcx : ¬c = x := fun e => hxc e.symm
          simp [strrchr, hx, hr, hxc, hcx, hn]


theorem cstr_afterPtr (p : List Char) (c : Char) :
    cstr (afterPtr p (strrchr p c)) = afterLast c (cstr p) := by
  cases h : strrchr p c with
  | some k => exact ((strrchr_spec p c).2 k h).2.1
  | none => exact (afterLast_of_not_mem _ _ ((strrchr_spec p c).1 h)).symm

theorem cstr_cutAt (p : List Char) (c : Char) :
    cstr (cutAt p (strrchr p c)) = uptoLast c (cstr p) := by
  cases h : strrchr p c with
  | some k =>
    unfold cutAt
    rw [cstr_set]
    exact ((strrchr_spec p c).2 k h).2.2
  | none => exact (uptoLast_of_not_mem _ _ ((strrchr_spec p c).1 h)).symm

theorem ParseCmdLine_flag_buffers (g : Globals) (cs : List Char) :
    (ParseCmdLine_flag g cs).1.servicename = g.servicename ∧
    (ParseCmdLine_flag g cs).1.filename = g.filename := by
  induction cs generalizing g with
  | nil => simp [ParseCmdLine_flag]
  | cons c cs ih =>
    unfold ParseCmdLine_flag
    split_ifs <;> simp [ih]

theorem ParseCmdLine_flags_spec (g : Globals) (flags : List String) (file : String)
    (rest : List String) (hflags : ∀ f ∈ flags, (cstring f).head? = some '-')
    (hfile : (cstring file).head? ≠ some '-') :
    (ParseCmdLine_flags g (flags ++ file :: rest)).2.1 = file :: rest ∧
    (ParseCmdLine_flags g (flags ++ file :: rest)).1.servicename = g.servicename ∧
    (ParseCmdLine_flags g (flags ++ file :: rest)).1.filename = g.filename := by
  induction flags generalizing g with
  | nil => simp [ParseCmdLine_flags, hfile]
  | cons f fs ih =>
    have hf : (cstring f).head? = some '-' := hflags f (List.mem_cons_self _ _)
    have ih2 := ih (ParseCmdLine_flag g ((cstring f).drop 1)).1
      (fun a ha => hflags a (List.mem_cons_of_mem _ ha))
    have hb := ParseCmdLine_flag_buffers g ((cstring f).drop 1)
    simp only [List.cons_append, ParseCmdLine_flags, hf, ne_eq, not_true_eq_false, if_false]
    exact ⟨ih2.1, ih2.2.1.trans hb.1, ih2.2.2.trans hb.2⟩

/-- The load branch of `ParseCmdLine` on a command line
`prog verb flags... file rest...`. -/
theorem ParseCmdLine_load (g : Globals) (prog verb : String) (flags : List String)
    (file : String) (rest : List String)
    (hverb : (cstring verb).head? = some 'l')
    (hflags : ∀ f ∈ flags, (cstring f).head? = some '-')
    (hfile : (cstring file).head? ≠ some '-') :
    (ParseCmdLine g (prog :: verb :: (flags ++ file :: rest))).exit = none ∧
    (ParseCmdLine g (prog :: verb :: (flags ++ file :: rest))).g.action = KLDLDR_LOAD ∧
    cstr (ParseCmdLine g (prog :: verb :: (flags ++ file :: rest))).g.filename =
      (cstring file).take 259 ∧
    (rest = [] →
      cstr (ParseCmdLine g (prog :: verb :: (flags ++ file :: rest))).g.servicename =
        uptoLast '.' ((afterLast '\\' ((cstring file).take 259)).take 255)) ∧
    (∀ svc more, rest = svc :: more →
      cstr (ParseCmdLine g (prog :: verb :: (flags ++ file :: rest))).g.servicename =
        (cstring svc).take 255) := by
  obtain ⟨h1, h2, h3⟩ := ParseCmdLine_flags_spec g flags file rest hflags hfile
  have hfn : ∀ dst : List Char,
      cstr ((strncpy dst file.toList MAX_PATH).set (MAX_PATH - 1) NUL) =
        (cstring file).take 259 := by
    intro dst
    rw [cstr_strncpy_set]
    unfold cstring MAX_PATH
    norm_num
  have hsn : ∀ dst src : List Char,
      cstr ((strncpy dst src 256).set (256 - 1) NUL) = (cstr src).take 255 := by
    intro dst src
    rw [cstr_strncpy_set]
  have hlen : ¬((prog :: verb :: (flags ++ file :: rest)).length < 2) := by
    simp
  have hv : (prog :: verb :: (flags ++ file :: rest)).getD 1 "" = verb := rfl
  have hd : (prog :: verb :: (flags ++ file :: rest)).drop 2 = flags ++ file :: rest := rfl
  have hn1 : ¬((file :: rest).length < 1) := by simp
  have hp0 : (file :: rest).getD 0 "" = file := rfl
  unfold ParseCmdLine
  rw [if_neg hlen, hd, hv]
  generalize ParseCmdLine_flags g (flags ++ file :: rest) = r at h1 h2 h3 ⊢
  obtain ⟨g2, params, t⟩ := r
  dsimp only at h1 h2 h3 ⊢
  subst h1
  rw [if_pos hverb, if_neg hn1, hp0]
  have hfb := hfn g2.filename
  generalize (strncpy g2.filename file.toList MAX_PATH).set (MAX_PATH - 1) NUL = fb at hfb ⊢
  refine ⟨?_, ?_, ?_, ?_, ?_⟩
  · split_ifs <;> rfl
  · split_ifs <;> rfl
  · split_ifs <;> exact hfb
  · intro hr
    subst hr
    have h1 : (file :: ([] : List String)).length = 1 := rfl
    rw [if_pos h1]
    dsimp only
    rw [cstr_cutAt, hsn, cstr_afterPtr, hfb]
  · intro svc more hr
    subst hr
    have hne : ¬((file :: svc :: more).length = 1) := by simp
    have hp1 : (file :: svc :: more).getD 1 "" = svc := rfl
    rw [if_neg hne, hp1]
    exact hsn _ _

/-- C10: on a load command line `prog l... -flags... file rest...`,
`ParseCmdLine` returns to `main` and leaves in `servicename`, when nothing
follows the filename and the filename holds fewer than 256 characters, the part
of the filename after its last backslash (all of it when it has none) with everything
from the last `.` of that part onward removed (nothing removed when that part
has no `.`); when a service name follows, its first 255 characters, whatever
the filename. -/
theorem ParseCmdLine_service_name (g : Globals) (prog verb : String) (flags : List String)
    (file : String) (rest : List String)
    (hverb : (cstring verb).head? = some 'l')
    (hflags : ∀ f ∈ flags, (cstring f).head? = some '-')
    (hfile : (cstring file).head? ≠ some '-') :
    (ParseCmdLine g (prog :: verb :: (flags ++ file :: rest))).exit = none ∧
    (rest = [] → (cstring file).length < 256 →
      cstr (ParseCmdLine g (prog :: verb :: (flags ++ file :: rest))).g.servicename =
        uptoLast '.' (afterLast '\\' (cstring file))) ∧
    (∀ svc more, rest = svc :: more →
      cstr (ParseCmdLine g (prog :: verb :: (flags ++ file :: rest))).g.servicename =
        (cstring svc).take 255) := by
  obtain ⟨h1, _, _, h4, h5⟩ := ParseCmdLine_load g prog verb flags file rest hverb hflags hfile
  refine ⟨h1, ?_, h5⟩
  intro hr hlen
  have e1 : (cstring file).take 259 = cstring file := List.take_of_length_le (by omega)
  have e2 : (afterLast '\\' (cstring file)).take 255 = afterLast '\\' (cstring file) :=
    List.take_of_length_le (by have := afterLast_length_le '\\' (cstring file); omega)
  rw [h4 hr, e1, e2]

theorem ParseCmdLine_service_name_witness :
    cstr (ParseCmdLine Globals.init
      ["kldldr", "load", "-v", "C:\\drivers\\beep.sys"]).g.servicename = "beep".toList ∧
    cstr (ParseCmdLine Globals.init
      ["kldldr", "load", "-v", "C:\\drivers\\beep.sys", "tone"]).g.servicename
        = "tone".toList := by
  have h := ParseCmdLine_service_name Globals.init "kldldr" "load" ["-v"]
    "C:\\drivers\\beep.sys" [] (by decide) (by decide) (by decide)
  have h2 := ParseCmdLine_service_name Globals.init "kldldr" "load" ["-v"]
    "C:\\drivers\\beep.sys" ["tone"] (by decide) (by decide) (by decide)
  constructor
  · exact (h.2.1 rfl (by decide)).trans (by decide)
  · exact (h2.2.2 "tone" [] rfl).trans (by decide)

theorem strlen_EVLOG : strlen EVLOG_REGISTRY_KEY.toList = 50 := by decide

theorem CreateEventlogRegEntry_keyname_length (servicename : List Char) :
    (CreateEventlogRegEntry_keyname servicename).length =
      max 256 (50 + min 256 (strlen servicename) + 1) := by
  unfold CreateEventlogRegEntry_keyname
  rw [length_strncat, length_strcpy]
  have h : strlen (strcpy (List.replicate 256 NUL) EVLOG_REGISTRY_KEY.toList) = 50 := by
    unfold strlen
    rw [cstr_strcpy]
    exact strlen_EVLOG
  rw [h, strlen_EVLOG, List.length_replicate]
  omega

/-- The registrar overruns `keyname` exactly when the service name holds more
than 205 characters. -/
theorem CreateEventlogRegEntry_overrun_iff (servicename : List Char) (evfilename : String)
    (types_supported : Nat) (os : Os) :
    CreateEventlogRegEntry servicename evfilename types_supported os = none ↔
      205 < strlen servicename := by
  unfold CreateEventlogRegEntry
  simp only [CreateEventlogRegEntry_keyname_length]
  by_cases h : 205 < strlen servicename
  · have h2 : 256 < max 256 (50 + min 256 (strlen servicename) + 1) := by omega
    simp [h, h2]
  · have h2 : ¬256 < max 256 (50 + min 256 (strlen servicename) + 1) := by omega
    simp only [h2, if_false, h, iff_false]
    split_ifs <;> simp

theorem DriverLoad_osOk (verbose : Nat) (servicename modulepath : String) :
    (DriverLoad verbose servicename modulepath osOk).ret = 1 := by
  simp [DriverLoad, DriverLoad_start, osOk]

/-- C7 fails on the code: for `kldldr load -m beep.sys <206 characters>` the
parser stores the 206-character name, `strncat` then writes 257 bytes (50 of
the prefix, 206 of the name, the NUL) into the 256-byte `keyname`, and the run
as a whole has no defined result. -/
theorem main_long_name_overrun :
    strlen (ParseCmdLine Globals.init argvLongName).g.servicename = 206 ∧
    (CreateEventlogRegEntry_keyname
      (ParseCmdLine Globals.init argvLongName).g.servicename).length = 257 ∧
    main argvLongName osOk = none := by
  have hp := ParseCmdLine_load Globals.init "kldldr" "load" ["-m"] "beep.sys"
    [String.mk (List.replicate 206 'a')] (by decide) (by decide) (by decide)
  have hname : cstring (String.mk (List.replicate 206 'a')) = List.replicate 206 'a' := by
    apply cstr_of_nul_free
    intro c hc
    rw [List.eq_of_mem_replicate hc]
    decide
  have hlen : strlen (ParseCmdLine Globals.init argvLongName).g.servicename = 206 := by
    unfold strlen
    have := hp.2.2.2.2 _ [] rfl
    unfold argvLongName
    rw [show (["kldldr", "load", "-m", "beep.sys", String.mk (List.replicate 206 'a')] :
      List String) = "kldldr" :: "load" :: (["-m"] ++ "beep.sys" ::
        [String.mk (List.replicate 206 'a')]) from rfl, this, hname, List.length_take,
      List.length_replicate]
    decide
  have hm : (ParseCmdLine Globals.init argvLongName).g.do_create_elog_entry = 1 := by decide
  have hc : (ParseCmdLine Globals.init argvLongName).g.do_copy_into_dir = 0 := by decide
  have ha : (ParseCmdLine Globals.init argvLongName).g.action = KLDLDR_LOAD := hp.2.1
  have he : (ParseCmdLine Globals.init argvLongName).exit = none := hp.1
  refine ⟨hlen, ?_, ?_⟩
  · rw [CreateEventlogRegEntry_keyname_length, hlen]
    decide
  · unfold main
    generalize ParseCmdLine Globals.init argvLongName = p at hlen hm hc ha he
    have hreg : ∀ ev, CreateEventlogRegEntry p.g.servicename ev 0x07 osOk = none :=
      fun ev => (CreateEventlogRegEntry_overrun_iff _ _ _ _).2 (by omega)
    simp [he, main_run, main_switch, ha, main_copy, hc, main_load, hm, DriverLoad_osOk, hreg]

/-! ### The dispatcher -/

/-- When `ParseCmdLine` ends the process, the exit status is the one it
passed to `exit`, and no controller runs. -/
theorem main_parser_exit (argv : List String) (os : Os) (code : Nat)
    (h : (ParseCmdLine Globals.init argv).exit = some code) :
    main argv os = some ⟨code, (ParseCmdLine Globals.init argv).trace⟩ := by
  unfold main
  simp only [h]

theorem DriverUnload_contract_witness :
    osStopFails.openSCManager.val ≠ 0 ∧ osStopFails.openService.val ≠ 0 ∧
    (DriverUnload 0 0 "beep" osStopFails).ret = 1 ∧
    (DriverUnload 0 1 "beep" osStopFails).ret = 0 :=
  ⟨by decide, by decide,
   ((DriverUnload_contract 0 0 "beep" osStopFails (by decide) (by decide)).2.1 rfl).2,
   ((DriverUnload_contract 0 1 "beep" osStopFails (by decide) (by decide)).2.2
      (by decide)).2⟩

theorem DriverQuery_enum_witness :
    osMoreData.openSCManager.val ≠ 0 ∧
    (DriverQuery "" osMoreData).ret = 1 ∧
    stdoutOf (DriverQuery "" osMoreData).trace = osMoreData.services.map enumBlock :=
  ⟨by decide,
   (DriverQuery_enum osMoreData (by decide)).2.2.2 (Or.inr rfl) (by decide)⟩

end Kldldr
